import Mathlib

/-!
Shallow embedding of the storage layer of `song-recognition` (`utils/dbClient.go`:
the `DBClient` facade and its SQLite backend).

Modelling choices:
* The `fingerprints` SQL table (`address INTEGER PRIMARY KEY, anchorTimeMs, songID`)
  is a `List (Nat × Couple)` of rows; the PRIMARY KEY constraint is the predicate
  `tableOK` (no two rows share an address).
* The `songs` SQL table (`id INTEGER PRIMARY KEY, key TEXT UNIQUE, ytID TEXT UNIQUE`)
  is a `List SongRow`; its constraints are checked by `songConflict` when inserting.
* A SQL transaction (`tx.Begin` / per-entry `stmt.Exec` / `tx.Commit` with a deferred
  `tx.Rollback`) is embedded by threading a transaction-local table through the loop:
  `tx.Commit` publishes it, an early error return discards it (the deferred rollback).
* Engine I/O failures are nondeterministic from the program's point of view, so they
  are supplied as oracle parameters (`TxOracle`, `readFail`, `ioFail`).
* Go's `strings.Contains` is embedded as `goContains`, and `strings.Split(s, "---")`
  as `goSplitKey` (a left-to-right non-overlapping scan for the separator).
* Each distinct error produced by the Go source is one constructor of `DbErr`;
  the Go message is recorded next to the constructor.
-/

/-- Modelled from the spec: `models.Couple` is outside this slice; the spec's
FingerprintOccurrence has an `anchorTimeMs` and a `songID`, both unsigned integers. -/
structure Couple where
  anchorTimeMs : Nat
  songID : Nat
deriving DecidableEq, Repr

/-- One row of the `songs` table: `id INTEGER PRIMARY KEY, key TEXT UNIQUE, ytID TEXT UNIQUE`. -/
structure SongRow where
  id : Nat
  key : String
  ytID : String
deriving DecidableEq, Repr

/-- The `Song` struct returned to callers: `Title`, `Artist`, `YouTubeID`. -/
structure Song where
  Title : String
  Artist : String
  YouTubeID : String
deriving DecidableEq, Repr

/-- The zero value `Song\x7b\x7d`. -/
def emptySong : Song := { Title := "", Artist := "", YouTubeID := "" }

/-- One constructor per distinct error the Go source can return. -/
inductive DbErr where
  /-- `errors.New("invalid filter key")` (the spec's `InvalidFilter`). -/
  | invalidFilterKey
  /-- `fmt.Errorf("invalid key format")` (the spec's `CorruptRecord`). -/
  | corruptKey
  /-- `fmt.Errorf("failed to retrieve song: %v", err)` (the spec's `ReadError` in `GetSong`). -/
  | retrieveSongFailed
  /-- `fmt.Errorf("song with ytID or key already exists: %v", err)` (the spec's `DuplicateSong`). -/
  | duplicateSong
  /-- `fmt.Errorf("failed to register song: %v", err)` (the spec's `WriteError` in `RegisterSong`). -/
  | registerFailed
  /-- `fmt.Errorf("error upserting document: %s", err)` in `StoreFingerprints`. -/
  | upsertFailed
  /-- Error returned by `sqlite.db.Begin()`. -/
  | txBeginFailed
  /-- Error returned by `tx.Prepare(...)`. -/
  | prepareFailed
  /-- Error returned by `tx.Commit()`. -/
  | commitFailed
  /-- `fmt.Errorf("error retrieving document for address %d: %s", ...)` (the spec's `ReadError` in `GetCouples`). -/
  | queryFailed
  /-- `errors.New("unsupported database")` (the spec's `UnsupportedBackend`). -/
  | unsupportedDatabase
deriving DecidableEq, Repr

/-- Errors reported by the underlying SQL engine for a single statement. -/
inductive SqlErr where
  /-- A `UNIQUE constraint failed` error (the branch `strings.Contains(err.Error(), "UNIQUE constraint failed")`). -/
  | uniqueConstraintFailed
  /-- Any other engine failure (I/O, syntax, missing column, ...). -/
  | ioError
deriving DecidableEq, Repr

/-- A Go `interface\x7b\x7d` value bound to a SQL query parameter: the callers pass
either a `uint32` (`GetSongByID`) or a `string` (`GetSongByYTID`, `GetSongByKey`). -/
inductive SqlValue where
  | u (n : Nat)
  | s (v : String)
deriving DecidableEq, Repr

/-- Embedding of Go `charsStartWith pat s = true` iff `pat` is a leading segment of `s`. -/
def charsStartWith : List Char → List Char → Bool
  | [], _ => true
  | _ :: _, [] => false
  | p :: ps, c :: cs => p == c && charsStartWith ps cs

/-- Scan of `charsStartWith` over every suffix of `s`. -/
def charsContain (pat : List Char) : List Char → Bool
  | [] => charsStartWith pat []
  | c :: t => charsStartWith pat (c :: t) || charsContain pat t

/-- Embedding of Go `strings.Contains(s, sub)`. -/
def goContains (s sub : String) : Bool :=
  charsContain sub.toList s.toList

/-- Embedding of Go `strings.Split(s, "---")` specialised to the fixed separator:
a left-to-right scan splitting at each non-overlapping occurrence of `---`. -/
def splitTripleDash : List Char → List (List Char)
  | [] => [[]]
  | '-' :: '-' :: '-' :: rest => [] :: splitTripleDash rest
  | c :: rest =>
    match splitTripleDash rest with
    | [] => [[c]]
    | p :: ps => (c :: p) :: ps

/-- Embedding of `strings.Split(key, "---")` on `String`. -/
def goSplitKey (s : String) : List String :=
  (splitTripleDash s.toList).map (fun l => String.mk l)

/-- Source: `const FILTER_KEYS = "_id | ytID | key"`. -/
def FILTER_KEYS : String := "_id | ytID | key"

/-- Modelled from the spec: `GenerateSongKey` (the Key/ID Provider's `keyOf`) is outside
this slice; the spec fixes the convention `"<title>---<artist>"`. -/
def GenerateSongKey (title artist : String) : String :=
  title ++ "---" ++ artist

/-- A row of the `fingerprints` table: the address with its stored couple. -/
abbrev FpRow := Nat × Couple

/-- The PRIMARY KEY constraint of the `fingerprints` table: addresses are pairwise distinct. -/
def tableOK (t : List FpRow) : Prop :=
  (t.map Prod.fst).Nodup

instance (t : List FpRow) : Decidable (tableOK t) := by
  unfold tableOK; infer_instance

/-- Embedding of the upsert statement
`INSERT INTO fingerprints ... ON CONFLICT(address) DO UPDATE SET ...`:
if a row with this address exists it is replaced, otherwise the row is inserted. -/
def upsertFp (t : List FpRow) (address : Nat) (c : Couple) : List FpRow :=
  if t.any (fun r => r.1 == address) then
    t.map (fun r => if r.1 == address then (address, c) else r)
  else
    t ++ [(address, c)]

/-- Embedding of `SELECT anchorTimeMs, songID FROM fingerprints WHERE address = ?`:
every row whose address matches, in table order. -/
def selectFp (t : List FpRow) (address : Nat) : List Couple :=
  t.filterMap (fun r => if r.1 == address then some r.2 else none)

/-- Failure oracle for one `StoreFingerprints` call: whether `Begin`, `Prepare`,
the i-th `stmt.Exec`, or `Commit` fails. -/
structure TxOracle where
  beginFail : Bool
  prepareFail : Bool
  execFail : Nat → Bool
  commitFail : Bool

/-- An all-success `TxOracle`. -/
def okTx : TxOracle :=
  { beginFail := false, prepareFail := false, execFail := fun _ => false, commitFail := false }

/-- The `for address, couple := range fingerprints` loop of `StoreFingerprints`,
threading the transaction-local table; the trailing `tx.Commit()` ends the loop. -/
def storeLoop (o : TxOracle) : Nat → List FpRow → List (Nat × Couple) → Except DbErr (List FpRow)
  | _, tx, [] => if o.commitFail then .error .commitFailed else .ok tx
  | i, tx, (address, c) :: rest =>
    if o.execFail i then .error .upsertFailed
    else storeLoop o (i + 1) (upsertFp tx address c) rest

/-- Embedding of `StoreFingerprints`. The batch is a list of `(address, couple)` entries
(Go map iteration order is arbitrary; theorems quantify over the order). On any error the
deferred `tx.Rollback()` leaves the persisted table unchanged; on success the committed
transaction-local table becomes the persisted table. Returns the new persisted table and
the returned error, if any. -/
def StoreFingerprints (o : TxOracle) (t : List FpRow) (batch : List (Nat × Couple)) :
    List FpRow × Option DbErr :=
  if o.beginFail then (t, some .txBeginFailed)
  else if o.prepareFail then (t, some .prepareFailed)
  else
    match storeLoop o 0 t batch with
    | .ok tx => (tx, none)
    | .error e => (t, some e)

/-- The result of folding the whole batch through the upsert statement. -/
def applyBatch (t : List FpRow) (batch : List (Nat × Couple)) : List FpRow :=
  batch.foldl (fun acc e => upsertFp acc e.1 e.2) t

/-- A Go `map[uint32][]models.Couple` value, as an association list; assignment to an
existing key replaces its value. -/
def mapInsert (m : List (Nat × List Couple)) (k : Nat) (v : List Couple) :
    List (Nat × List Couple) :=
  if m.any (fun p => p.1 == k) then
    m.map (fun p => if p.1 == k then (k, v) else p)
  else
    m ++ [(k, v)]

/-- Reading a key of the Go map. -/
def mapLookup (m : List (Nat × List Couple)) (k : Nat) : Option (List Couple) :=
  (m.find? (fun p => p.1 == k)).map Prod.snd

/-- The `for _, address := range addresses` loop of `GetCouples`: one
`SELECT ... WHERE address = ?` per requested address (the oracle `readFail i` tells
whether the i-th query or its row scan fails), writing each result list into the map. -/
def getCouplesLoop (readFail : Nat → Bool) (t : List FpRow) :
    Nat → List Nat → List (Nat × List Couple) → Except DbErr (List (Nat × List Couple))
  | _, [], acc => .ok acc
  | i, address :: rest, acc =>
    if readFail i then .error .queryFailed
    else getCouplesLoop readFail t (i + 1) rest (mapInsert acc address (selectFp t address))

/-- Embedding of `GetCouples`. -/
def GetCouples (readFail : Nat → Bool) (t : List FpRow) (addresses : List Nat) :
    Except DbErr (List (Nat × List Couple)) :=
  getCouplesLoop readFail t 0 addresses []

/-- Whether a row of `songs` matches `WHERE <filterKey> = ?` for the given bound value.
`id` is an INTEGER column, `key` and `ytID` are TEXT columns; comparing a column with a
value of the other type matches no row. -/
def songMatches (filterKey : String) (value : SqlValue) (r : SongRow) : Bool :=
  match filterKey, value with
  | "id", .u n => r.id == n
  | "key", .s v => r.key == v
  | "ytID", .s v => r.ytID == v
  | _, _ => false

/-- Whether `filterKey` names an actual column of `songs`; any other interpolated
string makes the engine reject the query. -/
def validColumn (filterKey : String) : Bool :=
  filterKey == "id" || filterKey == "key" || filterKey == "ytID"

/-- Embedding of `db.QueryRow("SELECT key, ytID FROM songs WHERE %s = ?", value).Scan(...)`:
`.ok none` is `sql.ErrNoRows`, `.error` is any other engine failure (including the
syntax / missing-column error caused by interpolating a non-column `filterKey`). -/
def querySong (readFail : Bool) (songs : List SongRow) (filterKey : String) (value : SqlValue) :
    Except SqlErr (Option SongRow) :=
  if readFail || !validColumn filterKey then .error .ioError
  else .ok (songs.find? (songMatches filterKey value))

/-- Embedding of `GetSong`. Returns the Go triple `(s Song, songExists bool, e error)`. -/
def GetSong (readFail : Bool) (songs : List SongRow) (filterKey : String) (value : SqlValue) :
    Song × Bool × Option DbErr :=
  if !goContains FILTER_KEYS filterKey then
    (emptySong, false, some .invalidFilterKey)
  else
    match querySong readFail songs filterKey value with
    | .error _ => (emptySong, false, some .retrieveSongFailed)
    | .ok none => (emptySong, false, none)
    | .ok (some row) =>
      match goSplitKey row.key with
      | [t, a] => ({ Title := t, Artist := a, YouTubeID := row.ytID }, true, none)
      | _ => (emptySong, false, some .corruptKey)

/-- Embedding of `GetSongByID`. -/
def GetSongByID (readFail : Bool) (songs : List SongRow) (songID : Nat) :
    Song × Bool × Option DbErr :=
  GetSong readFail songs "id" (.u songID)

/-- Embedding of `GetSongByYTID`. -/
def GetSongByYTID (readFail : Bool) (songs : List SongRow) (ytID : String) :
    Song × Bool × Option DbErr :=
  GetSong readFail songs "ytID" (.s ytID)

/-- Embedding of `GetSongByKey`. -/
def GetSongByKey (readFail : Bool) (songs : List SongRow) (key : String) :
    Song × Bool × Option DbErr :=
  GetSong readFail songs "key" (.s key)

/-- Whether inserting `(id, key, ytID)` into `songs` violates the PRIMARY KEY on `id`
or a UNIQUE constraint on `key` or `ytID`. -/
def songConflict (songs : List SongRow) (id : Nat) (key ytID : String) : Bool :=
  songs.any (fun r => r.id == id || r.key == key || r.ytID == ytID)

/-- Embedding of `db.Exec("INSERT INTO songs (id, key, ytID) VALUES (?, ?, ?)", ...)`:
the oracle `ioFail` is an engine failure unrelated to constraints. -/
def insertSong (ioFail : Bool) (songs : List SongRow) (id : Nat) (key ytID : String) :
    Except SqlErr (List SongRow) :=
  if ioFail then .error .ioError
  else if songConflict songs id key ytID then .error .uniqueConstraintFailed
  else .ok (songs ++ [{ id := id, key := key, ytID := ytID }])

/-- Embedding of `RegisterSong`. `genID` is the value produced by `GenerateUniqueID()`
(the external Key/ID Provider, supplied as a parameter). A `UNIQUE constraint failed`
engine error is mapped to the duplicate-song error, any other engine error to the
generic registration failure. Returns the table after the call and the Go result. -/
def RegisterSong (ioFail : Bool) (genID : Nat) (songs : List SongRow)
    (songTitle songArtist ytID : String) : List SongRow × Except DbErr Nat :=
  let songID := genID
  let key := GenerateSongKey songTitle songArtist
  match insertSong ioFail songs songID key ytID with
  | .error .uniqueConstraintFailed => (songs, .error .duplicateSong)
  | .error .ioError => (songs, .error .registerFailed)
  | .ok songs2 => (songs2, .ok songID)

/-- The two backend variants: `mongodb` is the spec's document backend, `sqlite`
the relational one. -/
inductive Backend where
  | mongodb
  | sqlite
deriving DecidableEq, Repr

/-- Embedding of `NewDbClient`'s backend selection: `storageTypeEnv` is the value of
the `STORAGE_TYPE` environment variable ("" when unset). -/
def NewDbClient (storageTypeEnv : String) : Except DbErr Backend :=
  let storageType := if storageTypeEnv == "" then "mongodb" else storageTypeEnv
  if storageType == "mongodb" then .ok .mongodb
  else if storageType == "sqlite" then .ok .sqlite
  else .error .unsupportedDatabase

theorem mem_map_fst_iff_any (t : List FpRow) (a : Nat) :
    (t.any (fun r => r.1 == a) = true) ↔ a ∈ t.map Prod.fst := by
  simp only [List.any_eq_true, beq_iff_eq, List.mem_map]

theorem selectFp_cons (r : FpRow) (t : List FpRow) (a : Nat) :
    selectFp (r :: t) a = if r.1 = a then r.2 :: selectFp t a else selectFp t a := by
  by_cases h : r.1 = a <;> simp [selectFp, List.filterMap_cons, h]

theorem selectFp_append (t₁ t₂ : List FpRow) (a : Nat) :
    selectFp (t₁ ++ t₂) a = selectFp t₁ a ++ selectFp t₂ a := by
  simp [selectFp, List.filterMap_append]

theorem selectFp_eq_nil {t : List FpRow} {a : Nat} (h : a ∉ t.map Prod.fst) :
    selectFp t a = [] := by
  induction t with
  | nil => rfl
  | cons r t ih =>
    simp only [List.map_cons, List.mem_cons] at h
    push_neg at h
    rw [selectFp_cons, if_neg (fun hc => h.1 hc.symm)]
    exact ih h.2

theorem selectFp_length_le_one {t : List FpRow} (ht : tableOK t) (a : Nat) :
    (selectFp t a).length ≤ 1 := by
  induction t with
  | nil => simp [selectFp]
  | cons r t ih =>
    unfold tableOK at ht ih
    simp only [List.map_cons, List.nodup_cons] at ht
    rw [selectFp_cons]
    by_cases h : r.1 = a
    · rw [if_pos h]
      rw [selectFp_eq_nil (h ▸ ht.1)]
      simp
    · rw [if_neg h]
      exact ih ht.2

theorem map_replace_id {t : List FpRow} {b : Nat} (c : Couple)
    (h : t.any (fun r => r.1 == b) = false) :
    t.map (fun r => if r.1 == b then (b, c) else r) = t := by
  induction t with
  | nil => rfl
  | cons r t ih =>
    simp only [List.any_cons, Bool.or_eq_false_iff] at h
    simp only [List.map_cons, h.1, Bool.false_eq_true, if_false, ih h.2]

theorem upsertFp_cons_hit {r : FpRow} {t : List FpRow} {b : Nat} (c : Couple)
    (hr : r.1 = b) (hb : b ∉ t.map Prod.fst) :
    upsertFp (r :: t) b c = (b, c) :: t := by
  have hany : (t.any (fun r => r.1 == b)) = false :=
    Bool.eq_false_iff.mpr (fun hc => hb ((mem_map_fst_iff_any t b).1 hc))
  unfold upsertFp
  rw [if_pos (by simp [List.any_cons, hr])]
  simp only [List.map_cons, hr, beq_self_eq_true, if_true, map_replace_id c hany]

theorem upsertFp_cons_miss {r : FpRow} {t : List FpRow} {b : Nat} (c : Couple)
    (hr : r.1 ≠ b) :
    upsertFp (r :: t) b c = r :: upsertFp t b c := by
  have hrb : (r.1 == b) = false := by simp [hr]
  unfold upsertFp
  simp only [List.any_cons, hrb, Bool.false_or]
  by_cases h : t.any (fun r => r.1 == b) = true
  · rw [if_pos h, if_pos h, List.map_cons, hrb]
    simp
  · rw [if_neg h, if_neg h, List.cons_append]

theorem selectFp_upsertFp :
    ∀ (t : List FpRow), tableOK t → ∀ (b : Nat) (c : Couple) (a : Nat),
      selectFp (upsertFp t b c) a = if b = a then [c] else selectFp t a := by
  intro t
  induction t with
  | nil =>
    intro _ b c a
    by_cases hba : b = a <;> simp [upsertFp, selectFp, hba]
  | cons r t ih =>
    intro ht b c a
    unfold tableOK at ht
    simp only [List.map_cons, List.nodup_cons] at ht
    obtain ⟨hr, hnd⟩ := ht
    by_cases hrb : r.1 = b
    · rw [upsertFp_cons_hit c hrb (hrb ▸ hr), selectFp_cons, selectFp_cons]
      by_cases hba : b = a
      · rw [if_pos hba, if_pos hba, selectFp_eq_nil (hba ▸ hrb ▸ hr)]
      · rw [if_neg hba, if_neg hba, if_neg (hrb ▸ hba)]
    · rw [upsertFp_cons_miss c hrb, selectFp_cons, ih hnd b c a, selectFp_cons]
      by_cases hba : b = a
      · rw [if_pos hba, if_pos hba, if_neg (hba ▸ hrb)]
      · rw [if_neg hba, if_neg hba]

theorem tableOK_upsertFp {t : List FpRow} (ht : tableOK t) (b : Nat) (c : Couple) :
    tableOK (upsertFp t b c) := by
  unfold tableOK at ht ⊢
  unfold upsertFp
  split
  · rw [List.map_map]
    have : t.map (Prod.fst ∘ fun r => if r.1 == b then (b, c) else r) = t.map Prod.fst := by
      apply List.map_congr_left
      intro r _
      by_cases h : r.1 = b <;> simp [h]
    rw [this]
    exact ht
  · rename_i h
    have hb : b ∉ t.map Prod.fst := fun hm => h ((mem_map_fst_iff_any t b).2 hm)
    simp [List.nodup_append, ht, hb]

theorem applyBatch_nil (t : List FpRow) : applyBatch t [] = t := rfl

theorem applyBatch_cons (t : List FpRow) (e : Nat × Couple) (batch : List (Nat × Couple)) :
    applyBatch t (e :: batch) = applyBatch (upsertFp t e.1 e.2) batch := rfl

theorem tableOK_applyBatch :
    ∀ (batch : List (Nat × Couple)) (t : List FpRow), tableOK t → tableOK (applyBatch t batch) := by
  intro batch
  induction batch with
  | nil => intro t ht; exact ht
  | cons e batch ih =>
    intro t ht
    rw [applyBatch_cons]
    exact ih _ (tableOK_upsertFp ht e.1 e.2)

theorem selectFp_applyBatch_notmem :
    ∀ (batch : List (Nat × Couple)) (t : List FpRow) (a : Nat), tableOK t →
      a ∉ batch.map Prod.fst → selectFp (applyBatch t batch) a = selectFp t a := by
  intro batch
  induction batch with
  | nil => intro t a _ _; rfl
  | cons e batch ih =>
    intro t a ht hmem
    simp only [List.map_cons, List.mem_cons] at hmem
    push_neg at hmem
    rw [applyBatch_cons, ih _ _ (tableOK_upsertFp ht e.1 e.2) hmem.2,
      selectFp_upsertFp t ht e.1 e.2 a, if_neg (fun h => hmem.1 h.symm)]

theorem selectFp_applyBatch_mem :
    ∀ (batch : List (Nat × Couple)) (t : List FpRow) (a : Nat) (c : Couple), tableOK t →
      (batch.map Prod.fst).Nodup → (a, c) ∈ batch →
      selectFp (applyBatch t batch) a = [c] := by
  intro batch
  induction batch with
  | nil => intro t a c _ _ h; cases h
  | cons e batch ih =>
    intro t a c ht hnd hmem
    simp only [List.map_cons, List.nodup_cons] at hnd
    rw [applyBatch_cons]
    rcases List.mem_cons.mp hmem with h | h
    · have ha : a = e.1 := by rw [← h]
      have hnotin : a ∉ batch.map Prod.fst := ha ▸ hnd.1
      rw [selectFp_applyBatch_notmem batch _ a (tableOK_upsertFp ht e.1 e.2) hnotin,
        selectFp_upsertFp t ht e.1 e.2 a, if_pos ha.symm]
      rw [← h]
    · exact ih _ a c (tableOK_upsertFp ht e.1 e.2) hnd.2 h

theorem storeLoop_cases (o : TxOracle) :
    ∀ (batch : List (Nat × Couple)) (i : Nat) (tx : List FpRow),
      storeLoop o i tx batch = .ok (applyBatch tx batch)
      ∨ ∃ e, storeLoop o i tx batch = .error e := by
  intro batch
  induction batch with
  | nil =>
    intro i tx
    unfold storeLoop
    by_cases h : o.commitFail
    · right; exact ⟨.commitFailed, by rw [if_pos h]⟩
    · left; rw [if_neg h, applyBatch_nil]
  | cons e batch ih =>
    intro i tx
    obtain ⟨a, c⟩ := e
    unfold storeLoop
    by_cases h : o.execFail i
    · right; exact ⟨.upsertFailed, by rw [if_pos h]⟩
    · rw [if_neg h]
      exact ih (i + 1) (upsertFp tx a c)

theorem storeLoop_noFail (o : TxOracle) (hexec : ∀ j, o.execFail j = false)
    (hcommit : o.commitFail = false) :
    ∀ (batch : List (Nat × Couple)) (i : Nat) (tx : List FpRow),
      storeLoop o i tx batch = .ok (applyBatch tx batch) := by
  intro batch
  induction batch with
  | nil =>
    intro i tx
    unfold storeLoop
    rw [hcommit, if_neg (by simp), applyBatch_nil]
  | cons e batch ih =>
    intro i tx
    obtain ⟨a, c⟩ := e
    unfold storeLoop
    rw [hexec i, if_neg (by simp)]
    exact ih (i + 1) (upsertFp tx a c)

theorem storeFingerprints_cases (o : TxOracle) (t : List FpRow) (batch : List (Nat × Couple)) :
    StoreFingerprints o t batch = (applyBatch t batch, none)
    ∨ ∃ e, StoreFingerprints o t batch = (t, some e) := by
  unfold StoreFingerprints
  by_cases hb : o.beginFail
  · right; exact ⟨.txBeginFailed, by rw [if_pos hb]⟩
  · rw [if_neg hb]
    by_cases hp : o.prepareFail
    · right; exact ⟨.prepareFailed, by rw [if_pos hp]⟩
    · rw [if_neg hp]
      rcases storeLoop_cases o batch 0 t with h | ⟨e, h⟩
      · left; rw [h]
      · right; exact ⟨e, by rw [h]⟩

theorem storeFingerprints_noFail (o : TxOracle) (hb : o.beginFail = false)
    (hp : o.prepareFail = false) (hexec : ∀ j, o.execFail j = false)
    (hcommit : o.commitFail = false) (t : List FpRow) (batch : List (Nat × Couple)) :
    StoreFingerprints o t batch = (applyBatch t batch, none) := by
  unfold StoreFingerprints
  rw [hb, if_neg (by simp), hp, if_neg (by simp), storeLoop_noFail o hexec hcommit batch 0 t]

theorem storeFingerprints_okTx (t : List FpRow) (batch : List (Nat × Couple)) :
    StoreFingerprints okTx t batch = (applyBatch t batch, none) :=
  storeFingerprints_noFail okTx rfl rfl (fun _ => rfl) rfl t batch

theorem mapLookup_cons (p : Nat × List Couple) (m : List (Nat × List Couple)) (k : Nat) :
    mapLookup (p :: m) k = if p.1 = k then some p.2 else mapLookup m k := by
  by_cases h : p.1 = k <;> simp [mapLookup, List.find?_cons, h]

theorem mapLookup_map_replace {m : List (Nat × List Couple)} {k k' : Nat} (v : List Couple)
    (h : k' ≠ k) :
    mapLookup (m.map (fun p => if p.1 == k then (k, v) else p)) k' = mapLookup m k' := by
  induction m with
  | nil => rfl
  | cons p m ih =>
    simp only [List.map_cons]
    by_cases hpk : p.1 = k
    · rw [if_pos (show (p.1 == k) = true by simp [hpk]), mapLookup_cons, mapLookup_cons,
        if_neg (show ¬ (k, v).1 = k' from fun hc => h hc.symm),
        if_neg (fun hc : p.1 = k' => h (hpk ▸ hc : k = k').symm), ih]
    · rw [if_neg (show ¬ (p.1 == k) = true by simp [hpk]), mapLookup_cons, mapLookup_cons, ih]

theorem mapInsert_cons_miss {p : Nat × List Couple} {m : List (Nat × List Couple)} {k : Nat}
    (v : List Couple) (hp : p.1 ≠ k) :
    mapInsert (p :: m) k v = p :: mapInsert m k v := by
  have hpb : (p.1 == k) = false := by simp [hp]
  unfold mapInsert
  simp only [List.any_cons, hpb, Bool.false_or]
  by_cases h : m.any (fun q => q.1 == k) = true
  · rw [if_pos h, if_pos h, List.map_cons, hpb]
    simp
  · rw [if_neg h, if_neg h, List.cons_append]

theorem mapLookup_mapInsert :
    ∀ (m : List (Nat × List Couple)) (k : Nat) (v : List Couple) (k' : Nat),
      mapLookup (mapInsert m k v) k' = if k' = k then some v else mapLookup m k' := by
  intro m
  induction m with
  | nil =>
    intro k v k'
    by_cases h : k' = k
    · simp [mapInsert, mapLookup, h]
    · simp [mapInsert, mapLookup, h, Ne.symm h]
  | cons p m ih =>
    intro k v k'
    by_cases hpk : p.1 = k
    · have hany : (p :: m).any (fun q => q.1 == k) = true := by
        simp [List.any_cons, hpk]
      unfold mapInsert
      rw [if_pos hany]
      simp only [List.map_cons]
      rw [if_pos (show (p.1 == k) = true by simp [hpk]), mapLookup_cons, mapLookup_cons]
      by_cases h : k' = k
      · rw [if_pos (show (k, v).1 = k' from h.symm), if_pos h]
      · rw [if_neg (show ¬ (k, v).1 = k' from fun hc => h hc.symm),
          mapLookup_map_replace v h, if_neg h, if_neg (fun hc : p.1 = k' => h (hpk ▸ hc : k = k').symm)]
  -- the remaining branch: the head key differs from k
    · rw [mapInsert_cons_miss v hpk, mapLookup_cons, ih k v k', mapLookup_cons]
      split_ifs with h1 h2
      · exact absurd (h1.trans h2) hpk
      · rfl
      · rfl
      · rfl

theorem getCouplesLoop_lookup (readFail : Nat → Bool) (t : List FpRow) :
    ∀ (addrs : List Nat) (i : Nat) (acc m : List (Nat × List Couple)),
      getCouplesLoop readFail t i addrs acc = .ok m →
      ∀ a, mapLookup m a = if a ∈ addrs then some (selectFp t a) else mapLookup acc a := by
  intro addrs
  induction addrs with
  | nil =>
    intro i acc m h a
    unfold getCouplesLoop at h
    cases h
    simp
  | cons a0 rest ih =>
    intro i acc m h a
    unfold getCouplesLoop at h
    by_cases hf : readFail i = true
    · rw [if_pos hf] at h
      cases h
    · rw [if_neg hf] at h
      have key := ih (i + 1) (mapInsert acc a0 (selectFp t a0)) m h a
      by_cases ha : a ∈ rest
      · rw [key, if_pos ha, if_pos (List.mem_cons.mpr (Or.inr ha))]
      · rw [key, if_neg ha, mapLookup_mapInsert]
        by_cases ha0 : a = a0
        · rw [if_pos ha0, if_pos (List.mem_cons.mpr (Or.inl ha0)), ha0]
        · rw [if_neg ha0, if_neg (fun hc => by
            rcases List.mem_cons.mp hc with h1 | h2
            · exact ha0 h1
            · exact ha h2)]

theorem getCouplesLoop_ok (readFail : Nat → Bool) (t : List FpRow)
    (hf : ∀ i, readFail i = false) :
    ∀ (addrs : List Nat) (i : Nat) (acc : List (Nat × List Couple)),
      ∃ m, getCouplesLoop readFail t i addrs acc = .ok m := by
  intro addrs
  induction addrs with
  | nil => intro i acc; exact ⟨acc, rfl⟩
  | cons a0 rest ih =>
    intro i acc
    unfold getCouplesLoop
    rw [hf i, if_neg (by simp)]
    exact ih (i + 1) (mapInsert acc a0 (selectFp t a0))

theorem getCouples_lookup (readFail : Nat → Bool) (t : List FpRow) (addrs : List Nat)
    (m : List (Nat × List Couple)) (h : GetCouples readFail t addrs = .ok m) (a : Nat) :
    mapLookup m a = if a ∈ addrs then some (selectFp t a) else none :=
  getCouplesLoop_lookup readFail t addrs 0 [] m h a

theorem getCouples_ok (readFail : Nat → Bool) (t : List FpRow) (addrs : List Nat)
    (hf : ∀ i, readFail i = false) :
    ∃ m, GetCouples readFail t addrs = .ok m :=
  getCouplesLoop_ok readFail t hf addrs 0 []

/-- C2: `StoreFingerprints(batch)` is all-or-nothing: for every failure oracle, starting
table and batch, either the call returns no error and the persisted table is the whole
batch folded through the upsert (each batch entry then readable under its address), or
the call returns an error and the persisted table is exactly the prior table. -/
theorem storeFingerprints_atomic (o : TxOracle) (t : List FpRow) (batch : List (Nat × Couple))
    (ht : tableOK t) (hkeys : (batch.map Prod.fst).Nodup) :
    (StoreFingerprints o t batch = (applyBatch t batch, none)
      ∧ ∀ p ∈ batch, selectFp (StoreFingerprints o t batch).1 p.1 = [p.2])
    ∨ ∃ e, StoreFingerprints o t batch = (t, some e) := by
  rcases storeFingerprints_cases o t batch with h | h
  · left
    refine ⟨h, fun p hp => ?_⟩
    rw [h]
    exact selectFp_applyBatch_mem batch t p.1 p.2 ht hkeys (by rw [Prod.mk.eta]; exact hp)
  · right
    exact h

/-- Witness for C2 at a concrete batch. -/
theorem storeFingerprints_atomic_witness :
    (StoreFingerprints okTx [] [(1, ⟨2, 3⟩)] = (applyBatch [] [(1, ⟨2, 3⟩)], none)
      ∧ ∀ p ∈ [((1 : Nat), (⟨2, 3⟩ : Couple))],
          selectFp (StoreFingerprints okTx [] [(1, ⟨2, 3⟩)]).1 p.1 = [p.2])
    ∨ ∃ e, StoreFingerprints okTx [] [(1, ⟨2, 3⟩)] = ([], some e) :=
  storeFingerprints_atomic okTx [] [(1, ⟨2, 3⟩)] (by decide) (by decide)

/-- C3: round-trip: for every batch with pairwise-distinct addresses, after a
`StoreFingerprints` call that returned no error, `GetCouples` on the batch's addresses
(with no read failure) succeeds and maps each stored address to exactly its stored
occurrence, one occurrence per address. -/
theorem storeFingerprints_getCouples_roundtrip (o : TxOracle) (t : List FpRow)
    (batch : List (Nat × Couple)) (ht : tableOK t) (hkeys : (batch.map Prod.fst).Nodup)
    (hok : (StoreFingerprints o t batch).2 = none) :
    ∃ m, GetCouples (fun _ => false) (StoreFingerprints o t batch).1 (batch.map Prod.fst) = .ok m
      ∧ ∀ p ∈ batch, mapLookup m p.1 = some [p.2] := by
  have hres : StoreFingerprints o t batch = (applyBatch t batch, none) := by
    rcases storeFingerprints_cases o t batch with h | ⟨e, h⟩
    · exact h
    · rw [h] at hok
      cases hok
  rw [hres]
  obtain ⟨m, hm⟩ := getCouples_ok (fun _ => false) (applyBatch t batch) (batch.map Prod.fst)
    (fun _ => rfl)
  refine ⟨m, hm, fun p hp => ?_⟩
  rw [getCouples_lookup (fun _ => false) _ _ m hm p.1,
    if_pos (List.mem_map.mpr ⟨p, hp, rfl⟩),
    selectFp_applyBatch_mem batch t p.1 p.2 ht hkeys (by rw [Prod.mk.eta]; exact hp)]

/-- Witness for C3: the spec's example batch. -/
theorem storeFingerprints_getCouples_roundtrip_witness :
    ∃ m, GetCouples (fun _ => false)
        (StoreFingerprints okTx [] [(100, ⟨500, 1⟩), (200, ⟨900, 2⟩)]).1
        ([((100 : Nat), (⟨500, 1⟩ : Couple)), (200, ⟨900, 2⟩)].map Prod.fst) = .ok m
      ∧ ∀ p ∈ [((100 : Nat), (⟨500, 1⟩ : Couple)), (200, ⟨900, 2⟩)],
          mapLookup m p.1 = some [p.2] :=
  storeFingerprints_getCouples_roundtrip okTx [] [(100, ⟨500, 1⟩), (200, ⟨900, 2⟩)]
    (by decide) (by decide) (by decide)

/-- C4: upsert-overwrite: storing address `a` with occurrence `o1` and then (in a second
successful call) with `o2` leaves exactly `o2` retrievable for `a` via `GetCouples`;
the second write replaces the first and never accumulates a second occurrence. -/
theorem storeFingerprints_upsert_overwrite (t : List FpRow) (a : Nat) (o1 o2 : Couple)
    (ht : tableOK t) :
    ∃ m, GetCouples (fun _ => false)
        (StoreFingerprints okTx (StoreFingerprints okTx t [(a, o1)]).1 [(a, o2)]).1 [a] = .ok m
      ∧ mapLookup m a = some [o2] := by
  rw [storeFingerprints_okTx t [(a, o1)], storeFingerprints_okTx]
  have ht1 : tableOK (applyBatch t [(a, o1)]) := tableOK_applyBatch [(a, o1)] t ht
  obtain ⟨m, hm⟩ := getCouples_ok (fun _ => false) (applyBatch (applyBatch t [(a, o1)]) [(a, o2)])
    [a] (fun _ => rfl)
  refine ⟨m, hm, ?_⟩
  rw [getCouples_lookup (fun _ => false) _ _ m hm a, if_pos (List.mem_singleton.mpr rfl),
    selectFp_applyBatch_mem [(a, o2)] _ a o2 ht1 (by simp) (List.mem_singleton.mpr rfl)]

/-- Witness for C4 at a concrete address and pair of occurrences. -/
theorem storeFingerprints_upsert_overwrite_witness :
    ∃ m, GetCouples (fun _ => false)
        (StoreFingerprints okTx (StoreFingerprints okTx [] [(7, ⟨5, 5⟩)]).1 [(7, ⟨9, 9⟩)]).1 [7]
        = .ok m
      ∧ mapLookup m 7 = some [⟨9, 9⟩] :=
  storeFingerprints_upsert_overwrite [] 7 ⟨5, 5⟩ ⟨9, 9⟩ (by decide)

/-- C5: for every request, when `GetCouples` succeeds its result maps each requested
address to the list of its stored occurrences — at most one under the table's PRIMARY KEY
invariant, and the empty list when the address has no stored occurrence — and contains no
key that was not requested; and whenever no per-address read fails, `GetCouples` succeeds
(so it fails only on backend I/O failure, never on not-found). -/
theorem getCouples_contract (readFail : Nat → Bool) (t : List FpRow) (addrs : List Nat)
    (ht : tableOK t) :
    (∀ m, GetCouples readFail t addrs = .ok m →
      (∀ a ∈ addrs, mapLookup m a = some (selectFp t a) ∧ (selectFp t a).length ≤ 1)
      ∧ ∀ k, (mapLookup m k).isSome → k ∈ addrs)
    ∧ ((∀ i, readFail i = false) → ∃ m, GetCouples readFail t addrs = .ok m) := by
  constructor
  · intro m hm
    constructor
    · intro a ha
      refine ⟨?_, selectFp_length_le_one ht a⟩
      rw [getCouples_lookup readFail t addrs m hm a, if_pos ha]
    · intro k hk
      by_contra hkn
      rw [getCouples_lookup readFail t addrs m hm k, if_neg hkn] at hk
      cases hk
  · intro hf
    exact getCouples_ok readFail t addrs hf

/-- Witness for C5: an address with a stored occurrence and one without. -/
theorem getCouples_contract_witness :
    ∃ m, GetCouples (fun _ => false) [((100 : Nat), (⟨500, 1⟩ : Couple))] [100, 300] = .ok m :=
  (getCouples_contract (fun _ => false) [(100, ⟨500, 1⟩)] [100, 300] (by decide)).2
    (fun _ => rfl)

theorem validColumn_contains {filterKey : String} (h : validColumn filterKey = true) :
    goContains FILTER_KEYS filterKey = true := by
  unfold validColumn at h
  simp only [Bool.or_eq_true, beq_iff_eq] at h
  rcases h with (h | h) | h <;> subst h <;> decide

/-- C1 counterexample: `"_id"` is not in the allow-list `\x7bid, ytID, key\x7d`, yet
`GetSong("_id", v)` does not fail with the invalid-filter error: the substring check
`strings.Contains(FILTER_KEYS, filterKey)` accepts `"_id"`, the query is issued against
storage, and the call fails with the storage-side retrieval error instead. -/
theorem getSong_filter_counterexample :
    ("_id" ≠ "id" ∧ "_id" ≠ "ytID" ∧ "_id" ≠ "key")
    ∧ (GetSong false [] "_id" (.u 0)).2.2 = some DbErr.retrieveSongFailed
    ∧ (GetSong false [] "_id" (.u 0)).2.2 ≠ some DbErr.invalidFilterKey := by
  decide

/-- C1 (amended): `GetSong(filterField, value)` fails immediately with the invalid-filter
error — independently of the stored songs and of the backend, hence with no storage
access — exactly when `filterField` is not a substring of the constant
`"_id | ytID | key"`; in particular `GetSong("address", v)` fails that way for any `v`. -/
theorem getSong_filter_amended (readFail : Bool) (songs : List SongRow) (value : SqlValue) :
    (∀ filterKey, goContains FILTER_KEYS filterKey = false →
        GetSong readFail songs filterKey value = (emptySong, false, some .invalidFilterKey))
    ∧ GetSong readFail songs "address" value = (emptySong, false, some .invalidFilterKey)
    ∧ (∀ filterKey, (GetSong readFail songs filterKey value).2.2 = some .invalidFilterKey
        ↔ goContains FILTER_KEYS filterKey = false) := by
  have main : ∀ filterKey, goContains FILTER_KEYS filterKey = false →
      GetSong readFail songs filterKey value = (emptySong, false, some .invalidFilterKey) := by
    intro f hf
    simp [GetSong, hf]
  refine ⟨main, main "address" (by decide), ?_⟩
  intro f
  constructor
  · intro h
    cases hb : goContains FILTER_KEYS f with
    | false => rfl
    | true =>
      exfalso
      rcases hq : querySong readFail songs f value with e | r
      · simp [GetSong, hb, hq] at h
      · rcases r with _ | row
        · simp [GetSong, hb, hq] at h
        · rcases hs : goSplitKey row.key with _ | ⟨x, _ | ⟨y, _ | ⟨z, l⟩⟩⟩ <;>
            simp [GetSong, hb, hq, hs] at h
  · intro hf
    rw [main f hf]

/-- Witness for the amended C1 at a rejected filter field. -/
theorem getSong_filter_amended_witness :
    GetSong false [] "zzz" (.u 0) = (emptySong, false, some DbErr.invalidFilterKey) :=
  (getSong_filter_amended false [] (.u 0)).1 "zzz" (by decide)

/-- C6: for every valid filter field (an actual column of `songs`) and value with no
matching stored row, `GetSong` — and the `GetSongByID` / `GetSongByYTID` / `GetSongByKey`
specialisations — return the zero `Song`, `found = false` and no error. -/
theorem getSong_notFound (songs : List SongRow) :
    (∀ filterKey value, validColumn filterKey = true →
        songs.find? (songMatches filterKey value) = none →
        GetSong false songs filterKey value = (emptySong, false, none))
    ∧ (∀ songID, songs.find? (songMatches "id" (.u songID)) = none →
        GetSongByID false songs songID = (emptySong, false, none))
    ∧ (∀ ytID, songs.find? (songMatches "ytID" (.s ytID)) = none →
        GetSongByYTID false songs ytID = (emptySong, false, none))
    ∧ (∀ key, songs.find? (songMatches "key" (.s key)) = none →
        GetSongByKey false songs key = (emptySong, false, none)) := by
  have main : ∀ filterKey value, validColumn filterKey = true →
      songs.find? (songMatches filterKey value) = none →
      GetSong false songs filterKey value = (emptySong, false, none) := by
    intro f v hf hnone
    simp [GetSong, querySong, validColumn_contains hf, hf, hnone]
  exact ⟨main,
    fun songID h => main "id" (.u songID) rfl h,
    fun ytID h => main "ytID" (.s ytID) rfl h,
    fun key h => main "key" (.s key) rfl h⟩

/-- Witness for C6: the spec's not-found scenario, `GetSongByID(9999999)` on an empty
registry. -/
theorem getSong_notFound_witness :
    GetSongByID false [] 9999999 = (emptySong, false, none) :=
  (getSong_notFound []).2.1 9999999 rfl

/-- C7: when the matched stored row's key does not split into exactly two parts on
`"---"`, `GetSong` fails with the corrupt-key error and returns no truncated song; when it
splits into exactly two parts, the returned `Song` carries those two parts as `Title` and
`Artist`. -/
theorem getSong_key_decomposition (songs : List SongRow) (filterKey : String)
    (value : SqlValue) (row : SongRow) (hv : validColumn filterKey = true)
    (hfind : songs.find? (songMatches filterKey value) = some row) :
    ((goSplitKey row.key).length ≠ 2 →
        GetSong false songs filterKey value = (emptySong, false, some .corruptKey))
    ∧ (∀ t a, goSplitKey row.key = [t, a] →
        GetSong false songs filterKey value
          = ({ Title := t, Artist := a, YouTubeID := row.ytID }, true, none)) := by
  have hc := validColumn_contains hv
  constructor
  · intro hlen
    rcases hs : goSplitKey row.key with _ | ⟨x, _ | ⟨y, _ | ⟨z, l⟩⟩⟩
    · simp [GetSong, querySong, hc, hv, hfind, hs]
    · simp [GetSong, querySong, hc, hv, hfind, hs]
    · rw [hs] at hlen; simp at hlen
    · simp [GetSong, querySong, hc, hv, hfind, hs]
  · intro ti ar hs
    simp [GetSong, querySong, hc, hv, hfind, hs]

/-- Witness for C7: a corrupt stored key fails, a well-formed one is decomposed. -/
theorem getSong_key_decomposition_witness :
    GetSong false [{ id := 1, key := "badkey", ytID := "yt" }] "id" (.u 1)
      = (emptySong, false, some .corruptKey)
    ∧ GetSong false [{ id := 2, key := "Song A---Artist X", ytID := "yt123" }] "id" (.u 2)
      = ({ Title := "Song A", Artist := "Artist X", YouTubeID := "yt123" }, true, none) :=
  ⟨(getSong_key_decomposition [{ id := 1, key := "badkey", ytID := "yt" }] "id" (.u 1)
      { id := 1, key := "badkey", ytID := "yt" } (by decide) (by decide)).1 (by decide),
   (getSong_key_decomposition [{ id := 2, key := "Song A---Artist X", ytID := "yt123" }]
      "id" (.u 2) { id := 2, key := "Song A---Artist X", ytID := "yt123" } (by decide)
      (by decide)).2 "Song A" "Artist X" (by decide)⟩

/-- C8: `RegisterSong` fails with the duplicate-song error whenever the derived key or
the `ytID` already exists in the registry (absent an unrelated engine failure), fails
with the distinct generic registration error on any other engine failure, and on success
returns the freshly generated `songID`. -/
theorem registerSong_contract (genID : Nat) (songs : List SongRow)
    (songTitle songArtist ytID : String) :
    ((songs.any (fun r =>
          r.key == GenerateSongKey songTitle songArtist || r.ytID == ytID)) = true →
        (RegisterSong false genID songs songTitle songArtist ytID).2
          = .error .duplicateSong)
    ∧ ((RegisterSong true genID songs songTitle songArtist ytID).2
          = .error .registerFailed)
    ∧ (DbErr.duplicateSong ≠ DbErr.registerFailed)
    ∧ (songConflict songs genID (GenerateSongKey songTitle songArtist) ytID = false →
        (RegisterSong false genID songs songTitle songArtist ytID).2 = .ok genID) := by
  refine ⟨?_, ?_, by decide, ?_⟩
  · intro h
    have hconf : songConflict songs genID (GenerateSongKey songTitle songArtist) ytID
        = true := by
      unfold songConflict
      rw [List.any_eq_true] at h ⊢
      obtain ⟨r, hr, hcase⟩ := h
      refine ⟨r, hr, ?_⟩
      simp only [Bool.or_eq_true] at hcase ⊢
      rcases hcase with h1 | h2
      · exact Or.inl (Or.inr h1)
      · exact Or.inr h2
    simp [RegisterSong, insertSong, hconf]
  · simp [RegisterSong, insertSong]
  · intro h
    simp [RegisterSong, insertSong, h]

/-- Witness for C8: a duplicate key is rejected, a fresh registration succeeds. -/
theorem registerSong_contract_witness :
    (RegisterSong false 43 [{ id := 42, key := "Song A---Artist X", ytID := "yt123" }]
        "Song A" "Artist X" "ytOther").2 = .error .duplicateSong
    ∧ (RegisterSong false 42 [] "Song A" "Artist X" "yt123").2 = .ok 42 :=
  ⟨(registerSong_contract 43 [{ id := 42, key := "Song A---Artist X", ytID := "yt123" }]
      "Song A" "Artist X" "ytOther").1 (by decide),
   (registerSong_contract 42 [] "Song A" "Artist X" "yt123").2.2.2 (by decide)⟩

/-- C9: backend selection: an unset `STORAGE_TYPE` selects the document backend
(`mongodb`), the two enumerated values select their matching backends, and every other
value fails with the unsupported-database error. -/
theorem newDbClient_selection :
    NewDbClient "" = .ok .mongodb
    ∧ NewDbClient "mongodb" = .ok .mongodb
    ∧ NewDbClient "sqlite" = .ok .sqlite
    ∧ ∀ s, s ≠ "" → s ≠ "mongodb" → s ≠ "sqlite" →
        NewDbClient s = .error .unsupportedDatabase := by
  refine ⟨rfl, rfl, rfl, ?_⟩
  intro s h1 h2 h3
  simp [NewDbClient, h1, h2, h3]

/-- Witness for C9 at an unsupported configuration value. -/
theorem newDbClient_selection_witness :
    NewDbClient "postgres" = .error .unsupportedDatabase :=
  newDbClient_selection.2.2.2 "postgres" (by decide) (by decide) (by decide)

/-- C10: on every error outcome of `GetSong` — invalid filter, backend read failure, or
corrupt stored key — the returned `Song` is the zero value and the found flag is `false`. -/
theorem getSong_error_zero (readFail : Bool) (songs : List SongRow) (filterKey : String)
    (value : SqlValue) (h : (GetSong readFail songs filterKey value).2.2 ≠ none) :
    (GetSong readFail songs filterKey value).1 = emptySong
    ∧ (GetSong readFail songs filterKey value).2.1 = false := by
  by_cases hc : goContains FILTER_KEYS filterKey = true
  · rcases hq : querySong readFail songs filterKey value with e | r
    · simp [GetSong, hc, hq]
    · rcases r with _ | row
      · exfalso
        apply h
        simp [GetSong, hc, hq]
      · rcases hs : goSplitKey row.key with _ | ⟨x, _ | ⟨y, _ | ⟨z, l⟩⟩⟩
        · simp [GetSong, hc, hq, hs]
        · simp [GetSong, hc, hq, hs]
        · exfalso
          apply h
          simp [GetSong, hc, hq, hs]
        · simp [GetSong, hc, hq, hs]
  · have hcf : goContains FILTER_KEYS filterKey = false := Bool.eq_false_iff.mpr hc
    simp [GetSong, hcf]

/-- Witness for C10 at a failing read. -/
theorem getSong_error_zero_witness :
    (GetSong true [] "id" (.u 0)).1 = emptySong ∧ (GetSong true [] "id" (.u 0)).2.1 = false :=
  getSong_error_zero true [] "id" (.u 0) (by decide)
